import Mathlib

/-!
# notaPromissoria: the `/upload` handler of `src/index.js`

A shallow embedding of the request handler that turns the rows of an uploaded
spreadsheet into promissory-note documents, and the properties of it that the
specification states.

The first part models the JavaScript values the handler computes with
(strings, numbers, `||`, `parseFloat`, number-to-string conversion), the second
the text placements of one document, the third the control flow of the handler
over an explicit file system and explicit outcomes of its collaborators
(spreadsheet reader, number-to-words function, streams, archiver, transport).

Numbers: a JavaScript number is modelled as `NaN`, zero, a signed infinity or a
signed finite decimal `mant * 10 ^ exp` in normal form. The two zeros are
identified (the handler only tests them for truthiness and `> 0`), and the
rounding of a decimal to the nearest binary64 value is not modelled: a decimal
literal denotes exactly its value.
-/

namespace NotaPromissoria

/-! ## JavaScript numbers and strings -/

/-- A positive finite number `mant * 10 ^ exp`, with `mant` not divisible by ten. -/
structure Decimal where
  mant : Nat
  exp : Int
  normal : mant % 10 ≠ 0
deriving DecidableEq

/-- A JavaScript number. -/
inductive JSNum where
  | nan : JSNum
  | zero : JSNum
  | fin (neg : Bool) (d : Decimal) : JSNum
  | inf (neg : Bool) : JSNum
deriving DecidableEq

/-- The rational value of a number, when it has one. -/
def JSNum.toRat : JSNum → Option ℚ
  | .nan => none
  | .zero => some 0
  | .fin neg d => some ((if neg then -1 else 1) * (d.mant : ℚ) * (10 : ℚ) ^ d.exp)
  | .inf _ => none

/-- The comparison `x > 0` of JavaScript. -/
def JSNum.gtZero : JSNum → Bool
  | .fin neg _ => !neg
  | .inf neg => !neg
  | _ => false

/-- ToBoolean on numbers: zero and NaN are falsy. -/
def JSNum.truthy : JSNum → Bool
  | .nan => false
  | .zero => false
  | _ => true

/-- Removes trailing decimal zeros of `m`, counting them into the exponent. -/
def stripZeros : Nat → Nat → Int → Nat × Int
  | 0, m, e => (m, e)
  | fuel + 1, m, e => if m % 10 = 0 then stripZeros fuel (m / 10) (e + 1) else (m, e)

/-- The number `± m * 10 ^ e` in normal form. -/
def mkFinite (neg : Bool) (m : Nat) (e : Int) : JSNum :=
  if h : (stripZeros m m e).1 % 10 ≠ 0 then
    .fin neg ⟨(stripZeros m m e).1, (stripZeros m m e).2, h⟩
  else .zero

/-- The character of a decimal digit. -/
def digitChar (d : Nat) : Char := Char.ofNat (48 + d)

/-- DecimalDigit: the characters `0` to `9`. -/
def isDecimalDigit (c : Char) : Bool := decide (48 ≤ c.toNat) && decide (c.toNat ≤ 57)

/-- Decimal digits of a natural number, most significant first, onto an accumulator. -/
def natDigitsAux : Nat → Nat → List Nat → List Nat
  | 0, _, acc => acc
  | fuel + 1, n, acc =>
    if n < 10 then n :: acc else natDigitsAux fuel (n / 10) (n % 10 :: acc)

/-- Decimal digits of a natural number, most significant first (`[0]` for zero). -/
def natDigits (n : Nat) : List Nat := natDigitsAux (n + 1) n []

/-- The decimal representation of a natural number. -/
def natToChars (n : Nat) : List Char := (natDigits n).map digitChar

/-- Number::toString (radix 10) on a positive finite number: with `k` the number of
digits of the mantissa `s` and `n = k + exp`, plain notation when `-5 ≤ n ≤ 21` and
scientific notation otherwise. -/
def decimalToChars (d : Decimal) : List Char :=
  let ds := natToChars d.mant
  let k : Int := ds.length
  let n : Int := k + d.exp
  if -5 ≤ n ∧ n ≤ 21 then
    if k ≤ n then ds ++ List.replicate (n - k).toNat '0'
    else if 0 < n then ds.take n.toNat ++ '.' :: ds.drop n.toNat
    else '0' :: '.' :: (List.replicate (-n).toNat '0' ++ ds)
  else
    let exponentSign : Char := if n < 0 then '-' else '+'
    let e := natToChars (n - 1).natAbs
    if k = 1 then ds ++ 'e' :: exponentSign :: e
    else ds.take 1 ++ '.' :: (ds.drop 1 ++ 'e' :: exponentSign :: e)

/-- Number::toString (radix 10). -/
def numberToChars : JSNum → List Char
  | .nan => "NaN".toList
  | .zero => "0".toList
  | .fin neg d => if neg then '-' :: decimalToChars d else decimalToChars d
  | .inf neg => if neg then "-Infinity".toList else "Infinity".toList

/-- StrWhiteSpaceChar: white space and line terminators. -/
def isStrWhiteSpaceChar (c : Char) : Bool :=
  decide (c.toNat ∈ [0x9, 0xA, 0xB, 0xC, 0xD, 0x20, 0xA0, 0x1680, 0x2000, 0x2001, 0x2002,
    0x2003, 0x2004, 0x2005, 0x2006, 0x2007, 0x2008, 0x2009, 0x200A, 0x2028, 0x2029, 0x202F,
    0x205F, 0x3000, 0xFEFF])

/-- The value of a run of decimal digit characters. -/
def digitsValue (cs : List Char) : Nat := cs.foldl (fun a c => 10 * a + (c.toNat - 48)) 0

/-- The digits of a SignedInteger. -/
def signedDigits (neg : Bool) (cs : List Char) : Option Int :=
  if cs.takeWhile isDecimalDigit = [] then none
  else some ((if neg then -1 else 1) * (digitsValue (cs.takeWhile isDecimalDigit) : Int))

/-- The longest ExponentPart the characters begin with, as its value; `0` when they
begin with none. -/
def scanExponent : List Char → Int
  | [] => 0
  | c :: rest =>
    if c = 'e' ∨ c = 'E' then
      match rest with
      | [] => 0
      | s :: r =>
        if s = '+' then (signedDigits false r).getD 0
        else if s = '-' then (signedDigits true r).getD 0
        else (signedDigits false (s :: r)).getD 0
    else 0

/-- The value of the longest prefix that is a StrUnsignedDecimalLiteral, with the
given sign; NaN when no prefix is one. -/
def parseUnsigned (neg : Bool) (cs : List Char) : JSNum :=
  if "Infinity".toList.isPrefixOf cs then .inf neg
  else
    let ip := cs.takeWhile isDecimalDigit
    match cs.dropWhile isDecimalDigit with
    | [] => if ip = [] then .nan else mkFinite neg (digitsValue ip) 0
    | c :: r =>
      if c = '.' then
        let fp := r.takeWhile isDecimalDigit
        if ip = [] ∧ fp = [] then .nan
        else mkFinite neg (digitsValue (ip ++ fp))
          (scanExponent (r.dropWhile isDecimalDigit) - fp.length)
      else if ip = [] then .nan
      else mkFinite neg (digitsValue ip) (scanExponent (c :: r))

/-- The function `parseFloat` on the characters of its argument: leading white space is
skipped and the longest prefix that is a StrDecimalLiteral is evaluated. -/
def parseFloatChars (cs : List Char) : JSNum :=
  match cs.dropWhile isStrWhiteSpaceChar with
  | [] => .nan
  | c :: r =>
    if c = '+' then parseUnsigned false r
    else if c = '-' then parseUnsigned true r
    else parseUnsigned false (c :: r)


/-! ## Values, rows and the texts of one document -/

deriving instance DecidableEq for Except

/-- A cell value of a row: a string or a number. -/
inductive Value where
  | str (s : String) : Value
  | num (n : JSNum) : Value
deriving DecidableEq

/-- A row of the sheet as an object: column name to cell value; a column without a
cell is an absent key. -/
abbrev Row := List (String × Value)

/-- Property access `row.col`: `none` is `undefined`. -/
def Row.get (row : Row) (col : String) : Option Value := List.lookup col row

/-- ToBoolean: `undefined`, the empty string, zero and NaN are falsy. -/
def truthy : Option Value → Bool
  | none => false
  | some (.str s) => decide (s ≠ "")
  | some (.num n) => n.truthy

/-- The expression `v || d`. -/
def orElse (v : Option Value) (d : Value) : Value :=
  match v with
  | some x => if truthy (some x) then x else d
  | none => d

/-- ToString on a cell value, as a template literal applies it. -/
def Value.toJSString : Value → String
  | .str s => s
  | .num n => String.mk (numberToChars n)

/-- The function `parseFloat`: its argument is first converted to a string. -/
def parseFloat (v : Value) : JSNum := parseFloatChars v.toJSString.toList

/-- The constant `valorNumerico`: `parseFloat(row.Valor || "0") || 0`. -/
def valorNumerico (row : Row) : JSNum :=
  if (parseFloat (orElse (row.get "Valor") (.str "0"))).truthy then
    parseFloat (orElse (row.get "Valor") (.str "0"))
  else .zero

/-- The constant `valorExtenso`: the words of a positive amount, by the external
number-to-words function (which may throw), or a line of underscores. -/
def valorExtenso (words : JSNum → Except String String) (row : Row) : Except String String :=
  if (valorNumerico row).gtZero then words (valorNumerico row)
  else .ok "__________________________"

/-- One call `doc.text(text, x, y, { width })`. -/
structure Placement where
  text : Value
  x : Nat
  y : Nat
  width : Option Nat
deriving DecidableEq

/-- The calls of `doc.text` for one row, in source order. -/
def texts (row : Row) (valorExtenso : String) : List Placement :=
  [ ⟨orElse (row.get "id") (.str "_____"), 100, 90, none⟩,
    ⟨orElse (row.get "Vencimento") (.str "__/__/____"), 350, 90, none⟩,
    ⟨.str ("R$ " ++ (orElse (row.get "Valor") (.str "_______")).toJSString), 450, 90, none⟩,
    ⟨orElse (row.get "NomeRecebedor") (.str "__________________"), 70, 130, none⟩,
    ⟨orElse (row.get "CPFRecebedor") (.str "___"), 80, 155, none⟩,
    ⟨.str ("ou à sua ordem, a quantia de " ++ valorExtenso), 80, 180, some 400⟩,
    ⟨orElse (row.get "Cidade") (.str "_____________________"), 80, 220, none⟩,
    ⟨orElse (row.get "NomeEmitente") (.str "___________________"), 80, 260, none⟩,
    ⟨orElse (row.get "Emissao") (.str "__/__/____"), 400, 260, none⟩,
    ⟨orElse (row.get "CPFEmitente") (.str "___"), 80, 280, none⟩,
    ⟨orElse (row.get "Endereco") (.str "_________________________"), 80, 300, none⟩,
    ⟨.str "_________________________", 400, 330, none⟩,
    ⟨.str "Ass. do Emitente", 440, 345, none⟩ ]

/-- The text part of one job: `valorExtenso` is computed first, then the texts are
drawn; when the number-to-words function throws, nothing is drawn. -/
def renderTexts (words : JSNum → Except String String) (row : Row) :
    Except String (List Placement) :=
  match valorExtenso words row with
  | .error e => .error e
  | .ok ve => .ok (texts row ve)

/-- The text drawn at a position, if any. -/
def textAt (ps : List Placement) (x y : Nat) : Option Value :=
  (ps.find? (fun p => decide (p.x = x ∧ p.y = y))).map Placement.text

/-- The position and optional width of a placement. -/
def Placement.place (p : Placement) : Nat × Nat × Option Nat := (p.x, p.y, p.width)

/-- The recognized columns. -/
def recognizedColumns : List String :=
  ["id", "Vencimento", "Valor", "NomeRecebedor", "CPFRecebedor", "Cidade", "NomeEmitente",
    "Emissao", "CPFEmitente", "Endereco"]

/-- The position at which the value of a column is drawn. -/
def fieldPosition (col : String) : Nat × Nat :=
  if col = "id" then (100, 90)
  else if col = "Vencimento" then (350, 90)
  else if col = "Valor" then (450, 90)
  else if col = "NomeRecebedor" then (70, 130)
  else if col = "CPFRecebedor" then (80, 155)
  else if col = "Cidade" then (80, 220)
  else if col = "NomeEmitente" then (80, 260)
  else if col = "Emissao" then (400, 260)
  else if col = "CPFEmitente" then (80, 280)
  else (80, 300)

/-- The underscore pattern that stands for a missing value of a column. -/
def fieldPlaceholder (col : String) : String :=
  if col = "id" then "_____"
  else if col = "Vencimento" then "__/__/____"
  else if col = "Valor" then "_______"
  else if col = "NomeRecebedor" then "__________________"
  else if col = "CPFRecebedor" then "___"
  else if col = "Cidade" then "_____________________"
  else if col = "NomeEmitente" then "___________________"
  else if col = "Emissao" then "__/__/____"
  else if col = "CPFEmitente" then "___"
  else "_________________________"

/-- What is drawn for a value of a column: the value itself, after `R$ ` and as a
string for the column Valor. -/
def fieldText (col : String) (v : Value) : Value :=
  if col = "Valor" then .str ("R$ " ++ v.toJSString) else v

/-- The position of the amount in words. -/
def wordsPosition : Nat × Nat := (80, 180)

/-- The line of underscores drawn in place of the amount in words. -/
def wordsPlaceholder : String := "__________________________"

/-- The text that introduces the amount in words. -/
def wordsLead : String := "ou à sua ordem, a quantia de "

/-! ## The file system, the jobs and the handler

The file system is the list of the paths that exist; a write stream creates its file
when it is made. The handler is a function of the request, of the file system and of
the outcomes of its collaborators, which are fields of the request: what the sheet
reader returns, what the clock and the random generator return, the number-to-words
function, the event that settles each job, and whether the archiver and the transfer
fail. Its result is the final file system, what was opened, drawn and archived, and
the response, if any.
-/

/-- The file system: the paths that exist. -/
abbrev FS := List String

/-- The call `path.join(dir, name)` for a single name. -/
def pathJoin (dir name : String) : String := dir ++ "/" ++ name

/-- The call `fs.existsSync(p)`. -/
def existsSync (fs : FS) (p : String) : Bool := decide (p ∈ fs)

/-- The call `fs.unlinkSync(p)`: throws when the file does not exist. -/
def unlinkSync (fs : FS) (p : String) : Except String FS :=
  if p ∈ fs then .ok (fs.filter (fun q => decide (q ≠ p)))
  else .error ("ENOENT: no such file or directory, unlink " ++ p)

/-- The call `fs.mkdirSync(p)`: throws when the path exists. -/
def mkdirSync (fs : FS) (p : String) : Except String FS :=
  if p ∈ fs then .error ("EEXIST: file already exists, mkdir " ++ p) else .ok (p :: fs)

/-- The call `fs.rmSync(p, { recursive: true, force: true })`: removes the path and
all below it, and accepts a path that does not exist. -/
def rmSync (fs : FS) (p : String) : FS :=
  fs.filter (fun q => decide (q ≠ p) && !((p ++ "/").toList.isPrefixOf q.toList))

/-- The file a write stream opens. -/
def openForWrite (fs : FS) (p : String) : FS := if p ∈ fs then fs else p :: fs

/-- The decimal digits of a non-negative integer below `10 ^ 21`, as a template
literal or `+` with a string renders it. -/
def natToString (n : Nat) : String := String.mk (natToChars n)

/-- What the handler has sent. -/
inductive Response where
  | send (status : Nat) (body : String) : Response
  | download (path : String) (filename : String) : Response
deriving DecidableEq

/-- The event that settles the promise of a job whose executor ran to its end:
`finish` of the write stream, `error` of the write stream (taken to be a failure to
open the file), `error` of the document, or none of them. Which event is emitted is
an input of the model: the source attaches the three handlers, and it does not pipe the
document into the stream. -/
inductive JobEvent where
  | finish : JobEvent
  | streamError : JobEvent
  | docError : JobEvent
  | silent : JobEvent
deriving DecidableEq

/-- The state of a promise when nothing more can happen to it. -/
inductive Settled where
  | resolved : Settled
  | rejected (reason : String) : Settled
  | pending : Settled
deriving DecidableEq

/-- One request and the outcomes of the collaborators of the handler for it. -/
structure Request where
  /-- The member `req.file.path`, when a file was uploaded. -/
  file : Option String
  /-- The rows of the first sheet of the uploaded file, or the error of the reader. -/
  sheet : Except String (List Row)
  /-- The value of `Date.now()`. -/
  now : Nat
  /-- The value of `Math.floor(Math.random() * 1000)`. -/
  random : Nat
  /-- The call `extenso.porExtenso(_, extenso.estilo.monetario)`. -/
  words : JSNum → Except String String
  /-- The event that settles the job of each index. -/
  jobEvent : Nat → JobEvent
  /-- Whether the archiver emits `error`. -/
  archiveError : Bool
  /-- Whether `res.download` calls back with an error. -/
  downloadError : Bool

/-- What the handler acts on. -/
structure World where
  /-- The file system. -/
  fs : FS
  /-- The paths the jobs have opened a write stream on, in job order. -/
  streams : List String
  /-- The texts drawn, by target path of the job, in job order. -/
  documents : List (String × List Placement)
  /-- The directories handed to `archive.directory`. -/
  archived : List String
deriving DecidableEq

/-- The end of a request: the world and the response, if one was sent. -/
structure Outcome where
  world : World
  response : Option Response
deriving DecidableEq

/-- The target path of the job of an index: `usuario_${index + 1}.pdf` in `pdfDir`. -/
def pdfPath (pdfDir : String) (index : Nat) : String :=
  pathJoin pdfDir ("usuario_" ++ natToString (index + 1) ++ ".pdf")

/-- The executor of the promise of one row: it opens the write stream, computes
`valorExtenso` and draws the texts. An exception thrown in it rejects the promise;
otherwise the promise is settled by the event of the job. -/
def executor (pdfDir : String) (req : Request) (row : Row) (index : Nat) (w : World) :
    Settled × World :=
  let opened : World :=
    { w with
      fs := if req.jobEvent index = .streamError then w.fs
        else openForWrite w.fs (pdfPath pdfDir index)
      streams := w.streams ++ [pdfPath pdfDir index] }
  match renderTexts req.words row with
  | .error e => (.rejected e, opened)
  | .ok ps =>
    (if req.jobEvent index = .silent then .pending else .resolved,
      { opened with documents := opened.documents ++ [(pdfPath pdfDir index, ps)] })

/-- The constant `generatePDFs`: `data.map` of the executor, from a first index on. -/
def generatePDFs (pdfDir : String) (req : Request) :
    List Row → Nat → World → List Settled × World
  | [], _, w => ([], w)
  | row :: rest, index, w =>
    ((executor pdfDir req row index w).1 ::
        (generatePDFs pdfDir req rest (index + 1) (executor pdfDir req row index w).2).1,
      (generatePDFs pdfDir req rest (index + 1) (executor pdfDir req row index w).2).2)

/-- The call `Promise.all`: rejected with the reason of the first rejected promise,
else pending when one is pending, else resolved. -/
def promiseAll : List Settled → Settled
  | [] => .resolved
  | .rejected e :: _ => .rejected e
  | .resolved :: rest => promiseAll rest
  | .pending :: rest =>
    match promiseAll rest with
    | .rejected e => .rejected e
    | _ => .pending

/-- The constant `uuid`: `Date.now() + "_" + Math.floor(Math.random() * 1000)`. -/
def uuid (req : Request) : String := natToString req.now ++ "_" ++ natToString req.random

/-- The constant `pdfDir`. -/
def pdfDir (dirname : String) (req : Request) : String :=
  pathJoin dirname ("pdfs_" ++ uuid req)

/-- The constant `zipPath`. -/
def zipPath (dirname : String) (req : Request) : String :=
  pathJoin dirname ("pdfs_" ++ uuid req ++ ".zip")

/-- The constant `imagePath`. -/
def imagePath (dirname : String) : String :=
  pathJoin dirname "nota-promissoria1455730210.png"

/-- The outer `catch` block. -/
def catchBlock (w : World) (message : String) : Outcome :=
  ⟨w, some (.send 500 ("Erro no processamento: " ++ message))⟩

/-- The handler after `await Promise.all(generatePDFs)`: the archive is written, then
sent, and the scratch files are removed. -/
def archiveAndSend (dirname : String) (req : Request) (w : World) : Outcome :=
  let w1 : World :=
    { w with
      fs := openForWrite w.fs (zipPath dirname req)
      archived := w.archived ++ [pdfDir dirname req] }
  if req.archiveError then
    ⟨{ w1 with
        fs := if existsSync (rmSync w1.fs (pdfDir dirname req)) (zipPath dirname req) then
            match unlinkSync (rmSync w1.fs (pdfDir dirname req)) (zipPath dirname req) with
            | .ok fs2 => fs2
            | .error _ => rmSync w1.fs (pdfDir dirname req)
          else rmSync w1.fs (pdfDir dirname req) },
      some (.send 500 "Erro ao criar o arquivo ZIP.")⟩
  else if req.downloadError then
    ⟨w1, some (.send 500 "Erro ao enviar o arquivo.")⟩
  else
    ⟨{ w1 with
        fs := match unlinkSync (rmSync w1.fs (pdfDir dirname req)) (zipPath dirname req) with
          | .ok fs2 => fs2
          | .error _ => rmSync w1.fs (pdfDir dirname req) },
      some (.download (zipPath dirname req) "documentos.zip")⟩

/-- The handler from `data.map` on: the jobs are run, and `await Promise.all` either
throws into the outer `catch`, never returns, or lets the handler go on to the archive. -/
def renderBatch (dirname : String) (req : Request) (data : List Row) (fs : FS) : Outcome :=
  match promiseAll (generatePDFs (pdfDir dirname req) req data 0 ⟨fs, [], [], []⟩).1 with
  | .rejected e =>
    catchBlock (generatePDFs (pdfDir dirname req) req data 0 ⟨fs, [], [], []⟩).2 e
  | .pending => ⟨(generatePDFs (pdfDir dirname req) req data 0 ⟨fs, [], [], []⟩).2, none⟩
  | .resolved =>
    archiveAndSend dirname req (generatePDFs (pdfDir dirname req) req data 0 ⟨fs, [], [], []⟩).2

/-- The handler of `POST /upload`, for the directory `__dirname` of the script. -/
def upload (dirname : String) (req : Request) (fs : FS) : Outcome :=
  match req.file with
  | none => ⟨⟨fs, [], [], []⟩, some (.send 400 "Nenhum arquivo enviado.")⟩
  | some filePath =>
    if filePath ∉ fs then
      catchBlock ⟨fs, [], [], []⟩ ("ENOENT: no such file or directory, open " ++ filePath)
    else
      match req.sheet with
      | .error e => catchBlock ⟨fs, [], [], []⟩ e
      | .ok data =>
        match unlinkSync fs filePath with
        | .error e => catchBlock ⟨fs, [], [], []⟩ e
        | .ok fs1 =>
          if data.length = 0 then ⟨⟨fs1, [], [], []⟩, some (.send 400 "Planilha sem dados.")⟩
          else
            match mkdirSync fs1 (pdfDir dirname req) with
            | .error e => catchBlock ⟨fs1, [], [], []⟩ e
            | .ok fs2 =>
              if !existsSync fs2 (imagePath dirname) then
                ⟨⟨fs2, [], [], []⟩, some (.send 500 "Imagem de fundo não encontrada.")⟩
              else renderBatch dirname req data fs2

/-- The documents the jobs of a table draw, from a first index on: one for each row on
which the number-to-words function does not throw. -/
def drawn (dir : String) (words : JSNum → Except String String) :
    List Row → Nat → List (String × List Placement)
  | [], _ => []
  | row :: rest, index =>
    match renderTexts words row with
    | .ok ps => (pdfPath dir index, ps) :: drawn dir words rest (index + 1)
    | .error _ => drawn dir words rest (index + 1)

/-- A row with an id and a positive amount. -/
def sampleRow : Row := [("id", .str "7"), ("Valor", .str "1500.00")]

/-- A request with two rows, the second without cells, in which every collaborator
succeeds. -/
def sampleRequest : Request :=
  { file := some "/app/uploads/f1"
    sheet := .ok [sampleRow, []]
    now := 1700000000000
    random := 42
    words := fun _ => .ok "mil e quinhentos reais"
    jobEvent := fun _ => .finish
    archiveError := false
    downloadError := false }

/-- A file system with the uploaded file and the background image. -/
def sampleFS : FS := ["/app/uploads/f1", "/app/nota-promissoria1455730210.png"]

/-- The positions and widths of the calls of `doc.text`, in source order. -/
def layout : List (Nat × Nat × Option Nat) :=
  [(100, 90, none), (350, 90, none), (450, 90, none), (70, 130, none), (80, 155, none),
    (80, 180, some 400), (80, 220, none), (80, 260, none), (400, 260, none), (80, 280, none),
    (80, 300, none), (400, 330, none), (440, 345, none)]

/-- The texts of a document for a row without any of the recognized columns. -/
def placeholderTexts : List Placement :=
  [ ⟨.str "_____", 100, 90, none⟩,
    ⟨.str "__/__/____", 350, 90, none⟩,
    ⟨.str "R$ _______", 450, 90, none⟩,
    ⟨.str "__________________", 70, 130, none⟩,
    ⟨.str "___", 80, 155, none⟩,
    ⟨.str "ou à sua ordem, a quantia de __________________________", 80, 180, some 400⟩,
    ⟨.str "_____________________", 80, 220, none⟩,
    ⟨.str "___________________", 80, 260, none⟩,
    ⟨.str "__/__/____", 400, 260, none⟩,
    ⟨.str "___", 80, 280, none⟩,
    ⟨.str "_________________________", 80, 300, none⟩,
    ⟨.str "_________________________", 400, 330, none⟩,
    ⟨.str "Ass. do Emitente", 440, 345, none⟩ ]

/-! ## Decimal numerals, as the specification speaks of them -/

theorem digitChar_toNat {d : Nat} (h : d < 10) : (digitChar d).toNat = 48 + d := by
  interval_cases d <;> rfl

/-- The value of a list of digits, most significant first. -/
theorem digitsValue_append (as bs : List Char) :
    digitsValue (as ++ bs) = digitsValue as * 10 ^ bs.length + digitsValue bs := by
  induction bs using List.reverseRecOn generalizing as with
  | nil => simp [digitsValue]
  | append_singleton bs c ih =>
    have h1 : digitsValue (as ++ (bs ++ [c])) = 10 * digitsValue (as ++ bs) + (c.toNat - 48) := by
      simp [digitsValue, List.foldl_append, ← List.append_assoc]
    have h2 : digitsValue (bs ++ [c]) = 10 * digitsValue bs + (c.toNat - 48) := by
      simp [digitsValue, List.foldl_append]
    rw [h1, h2, ih]
    simp only [List.length_append, List.length_singleton, pow_succ]
    ring

theorem natDigitsAux_eq (fuel : Nat) :
    ∀ n acc, 0 < n → n < fuel → natDigitsAux fuel n acc = (Nat.digits 10 n).reverse ++ acc := by
  induction fuel with
  | zero => intro n acc _ h; omega
  | succ fuel ih =>
    intro n acc hpos hlt
    rw [natDigitsAux]
    by_cases h10 : n < 10
    · rw [if_pos h10, Nat.digits_of_lt 10 n (by omega) h10]
      rfl
    · rw [if_neg h10, ih (n / 10) _ (by omega) (by omega),
        Nat.digits_def' (by norm_num) hpos]
      simp

theorem natDigits_eq {n : Nat} (h : 0 < n) : natDigits n = (Nat.digits 10 n).reverse :=
  by simpa [natDigits] using natDigitsAux_eq (n + 1) n [] h (by omega)

theorem natDigits_zero : natDigits 0 = [0] := rfl

theorem natDigits_lt (n : Nat) : ∀ d ∈ natDigits n, d < 10 := by
  intro d hd
  rcases Nat.eq_zero_or_pos n with rfl | h
  · simp [natDigits_zero] at hd; omega
  · rw [natDigits_eq h, List.mem_reverse] at hd
    exact Nat.digits_lt_base (by norm_num) hd

theorem digitsValue_map_digitChar (ds : List Nat) (h : ∀ d ∈ ds, d < 10) :
    digitsValue (ds.map digitChar) = Nat.ofDigits 10 ds.reverse := by
  induction ds using List.reverseRecOn with
  | nil => rfl
  | append_singleton ds d ih =>
    have hd : d < 10 := h d (by simp)
    rw [List.map_append, digitsValue_append, ih (fun x hx => h x (by simp [hx]))]
    simp [digitsValue, digitChar_toNat hd, Nat.ofDigits_cons]
    ring

/-- Reading the decimal representation of a natural number gives the number back. -/
theorem digitsValue_natToChars (n : Nat) : digitsValue (natToChars n) = n := by
  rw [natToChars, digitsValue_map_digitChar _ (natDigits_lt n)]
  rcases Nat.eq_zero_or_pos n with rfl | h
  · rfl
  · rw [natDigits_eq h, List.reverse_reverse, Nat.ofDigits_digits]

theorem natToChars_injective : Function.Injective natToChars := by
  intro a b h
  rw [← digitsValue_natToChars a, ← digitsValue_natToChars b, h]

/-! ## Normal forms -/

theorem mkFinite_zero (neg : Bool) (E : Int) : mkFinite neg 0 E = .zero := by
  simp [mkFinite, stripZeros]

theorem normal_form_unique_aux (m m2 : Nat) (e e2 : Int) (hm : m % 10 ≠ 0) (hle : e ≤ e2)
    (h : (m : ℚ) * 10 ^ e = (m2 : ℚ) * 10 ^ e2) : m = m2 ∧ e = e2 := by
  obtain ⟨j, rfl⟩ : ∃ j : Nat, e2 = e + j := ⟨(e2 - e).toNat, by omega⟩
  have h10 : (10 : ℚ) ^ e ≠ 0 := zpow_ne_zero _ (by norm_num)
  rw [zpow_add₀ (by norm_num : (10 : ℚ) ≠ 0), zpow_natCast, ← mul_assoc, mul_comm (m2 : ℚ) _,
    mul_assoc, mul_comm (m : ℚ) _] at h
  have h2 : (m : ℚ) = ((m2 * 10 ^ j : Nat) : ℚ) := by
    push_cast
    exact mul_left_cancel₀ h10 h
  have h3 : m = m2 * 10 ^ j := by exact_mod_cast h2
  cases j with
  | zero => simp at h3; simp [h3]
  | succ j =>
    exfalso
    apply hm
    rw [h3, pow_succ, ← mul_assoc]
    simp

/-- Two finite numbers of the same value are the same number. -/
theorem toRat_fin_injective (a b : Bool) (d d2 : Decimal)
    (h : (JSNum.fin a d).toRat = (JSNum.fin b d2).toRat) : JSNum.fin a d = JSNum.fin b d2 := by
  have pos : ∀ x : Decimal, (0 : ℚ) < (x.mant : ℚ) * 10 ^ x.exp := by
    intro x
    have hx : 0 < x.mant := Nat.pos_of_ne_zero (fun h0 => x.normal (by simp [h0]))
    have h1 : (0 : ℚ) < x.mant := by exact_mod_cast hx
    exact mul_pos h1 (zpow_pos (by norm_num) _)
  have key : ∀ x y : Decimal, (x.mant : ℚ) * 10 ^ x.exp = (y.mant : ℚ) * 10 ^ y.exp → x = y := by
    intro x y hxy
    have : x.mant = y.mant ∧ x.exp = y.exp := by
      rcases le_total x.exp y.exp with hle | hle
      · exact normal_form_unique_aux _ _ _ _ x.normal hle hxy
      · obtain ⟨h1, h2⟩ := normal_form_unique_aux _ _ _ _ y.normal hle hxy.symm
        exact ⟨h1.symm, h2.symm⟩
    cases x; cases y; simp_all
  simp only [JSNum.toRat, Option.some.injEq] at h
  have hd := pos d
  have hd2 := pos d2
  cases a <;> cases b <;> simp only [Bool.false_eq_true, if_false, if_true, one_mul, neg_mul] at h
  · rw [key d d2 h]
  · exfalso; linarith
  · exfalso; linarith
  · rw [key d d2 (neg_injective h)]

theorem textAt_field (row : Row) (ve : String) (col : String) (h : col ∈ recognizedColumns) :
    textAt (texts row ve) (fieldPosition col).1 (fieldPosition col).2 =
      some (fieldText col (orElse (row.get col) (.str (fieldPlaceholder col)))) := by
  simp only [recognizedColumns, List.mem_cons, List.mem_singleton, List.not_mem_nil,
    or_false] at h
  rcases h with rfl | rfl | rfl | rfl | rfl | rfl | rfl | rfl | rfl | rfl <;>
    simp [textAt, texts, List.find?, fieldPosition, fieldPlaceholder, fieldText]

theorem renderTexts_eq (words : JSNum → Except String String) (row : Row) :
    renderTexts words row = (valorExtenso words row).map (texts row) := by
  unfold renderTexts
  cases valorExtenso words row <;> rfl

theorem orElse_of_falsy (v : Option Value) (d : Value) (h : truthy v = false) :
    orElse v d = d := by
  cases v with
  | none => rfl
  | some x => simp [orElse, h]

theorem valorNumerico_gtZero (row : Row) :
    (valorNumerico row).gtZero = (parseFloat (orElse (row.get "Valor") (.str "0"))).gtZero := by
  unfold valorNumerico
  cases h : parseFloat (orElse (row.get "Valor") (.str "0")) <;>
    simp [JSNum.truthy, JSNum.gtZero]

theorem valorExtenso_of_not_gtZero (words : JSNum → Except String String) (row : Row)
    (h : (valorNumerico row).gtZero = false) :
    valorExtenso words row = .ok "__________________________" := by
  simp [valorExtenso, h]

theorem placeholder_texts_aux (words : JSNum → Except String String) (row : Row)
    (h : row.get "Valor" = none) : valorExtenso words row = .ok "__________________________" := by
  apply valorExtenso_of_not_gtZero
  rw [valorNumerico_gtZero, h]
  decide

theorem renderTexts_error (words : JSNum → Except String String) (row : Row) (e : String)
    (h : renderTexts words row = .error e) :
    (valorNumerico row).gtZero = true ∧ words (valorNumerico row) = .error e := by
  rw [renderTexts_eq, valorExtenso] at h
  by_cases hg : (valorNumerico row).gtZero = true
  · rw [if_pos hg] at h
    refine ⟨hg, ?_⟩
    cases hw : words (valorNumerico row) with
    | error e2 => rw [hw] at h; simpa [Except.map] using h
    | ok w => rw [hw] at h; simp [Except.map] at h
  · rw [if_neg hg] at h
    simp [Except.map] at h

/-- C3. For every row and each of the ten recognized columns, if the column is absent or
is the empty string, the text at the position of the field is the placeholder of the
field (after `R$ ` for Valor), whatever the words are; the texts are drawn unless the
number-to-words function throws on a positive amount; and a row with none of the columns
gives all thirteen placements, without error, with the placeholders only. -/
theorem placeholder_of_missing_column (words : JSNum → Except String String) (row : Row)
    (col : String) (hcol : col ∈ recognizedColumns)
    (hblank : row.get col = none ∨ row.get col = some (.str "")) :
    (∀ ve, textAt (texts row ve) (fieldPosition col).1 (fieldPosition col).2 =
        some (fieldText col (.str (fieldPlaceholder col)))) ∧
      (∀ ps, renderTexts words row = .ok ps →
        textAt ps (fieldPosition col).1 (fieldPosition col).2 =
          some (fieldText col (.str (fieldPlaceholder col)))) ∧
      (∀ e, renderTexts words row = .error e →
        (valorNumerico row).gtZero = true ∧ words (valorNumerico row) = .error e) ∧
      ((∀ c ∈ recognizedColumns, row.get c = none) →
        renderTexts words row = .ok placeholderTexts ∧ placeholderTexts.length = 13) := by
  have hfalsy : truthy (row.get col) = false := by
    rcases hblank with h | h <;> rw [h] <;> rfl
  have h1 : ∀ ve, textAt (texts row ve) (fieldPosition col).1 (fieldPosition col).2 =
      some (fieldText col (.str (fieldPlaceholder col))) := by
    intro ve
    rw [textAt_field row ve col hcol, orElse_of_falsy _ _ hfalsy]
  refine ⟨h1, ?_, renderTexts_error words row, ?_⟩
  · intro ps hps
    rw [renderTexts_eq] at hps
    cases hve : valorExtenso words row with
    | error e => rw [hve] at hps; simp [Except.map] at hps
    | ok ve =>
      rw [hve] at hps
      simp only [Except.map, Except.ok.injEq] at hps
      rw [← hps]
      exact h1 ve
  · intro hall
    have hget : ∀ c ∈ recognizedColumns, row.get c = none := hall
    simp only [recognizedColumns, List.mem_cons, List.mem_singleton, List.not_mem_nil,
      or_false, forall_eq_or_imp, forall_eq] at hget
    obtain ⟨g1, g2, g3, g4, g5, g6, g7, g8, g9, g10⟩ := hget
    have hve := (placeholder_texts_aux words row g3)
    refine ⟨?_, rfl⟩
    rw [renderTexts, hve]
    simp [texts, placeholderTexts, g1, g2, g3, g4, g5, g6, g7, g8, g9, g10, orElse,
      Value.toJSString]

/-- C3 at the row without cells and the column Cidade. -/
theorem placeholder_of_missing_column_witness :
    ("Cidade" ∈ recognizedColumns ∧
      (Row.get [] "Cidade" = none ∨ Row.get [] "Cidade" = some (.str ""))) ∧
    ((∀ ve, textAt (texts [] ve) (fieldPosition "Cidade").1 (fieldPosition "Cidade").2 =
        some (fieldText "Cidade" (.str (fieldPlaceholder "Cidade")))) ∧
      (∀ ps, renderTexts (fun _ => .error "invoked") [] = .ok ps →
        textAt ps (fieldPosition "Cidade").1 (fieldPosition "Cidade").2 =
          some (fieldText "Cidade" (.str (fieldPlaceholder "Cidade")))) ∧
      (∀ e, renderTexts (fun _ => .error "invoked") [] = .error e →
        (valorNumerico []).gtZero = true ∧
          (fun _ => .error "invoked" : JSNum → Except String String) (valorNumerico []) =
            .error e) ∧
      ((∀ c ∈ recognizedColumns, Row.get [] c = none) →
        renderTexts (fun _ => .error "invoked") [] = .ok placeholderTexts ∧
          placeholderTexts.length = 13)) :=
  ⟨⟨by decide, Or.inl rfl⟩,
    placeholder_of_missing_column (fun _ => .error "invoked") [] "Cidade" (by decide)
      (Or.inl rfl)⟩

theorem texts_place (row : Row) (ve : String) : (texts row ve).map Placement.place = layout := by
  simp [texts, layout, Placement.place]

theorem renderTexts_ok (words : JSNum → Except String String) (row : Row)
    (ps : List Placement) (h : renderTexts words row = .ok ps) :
    ∃ ve, valorExtenso words row = .ok ve ∧ ps = texts row ve := by
  rw [renderTexts_eq] at h
  cases hve : valorExtenso words row with
  | error e => rw [hve] at h; simp [Except.map] at h
  | ok ve =>
    rw [hve] at h
    simp only [Except.map, Except.ok.injEq] at h
    exact ⟨ve, rfl, h.symm⟩

/-- C9, as the code has it. For every row, the document is given exactly thirteen text
placements (all of them, unless the number-to-words function throws on a positive
amount, in which case none), at thirteen pairwise distinct coordinates, and the sequence
of coordinates and optional widths is the same fixed table for every row. -/
theorem thirteen_text_placements (words : JSNum → Except String String) (row : Row) :
    layout.length = 13 ∧ (layout.map (fun p => (p.1, p.2.1))).Nodup ∧
      (∀ ve, (texts row ve).map Placement.place = layout) ∧
      (∀ ps, renderTexts words row = .ok ps →
        ps.length = 13 ∧ ps.map Placement.place = layout) ∧
      (∀ ve, valorExtenso words row = .ok ve → renderTexts words row = .ok (texts row ve)) ∧
      (∀ e, renderTexts words row = .error e →
        (valorNumerico row).gtZero = true ∧ words (valorNumerico row) = .error e) := by
  refine ⟨rfl, by decide, texts_place row, ?_, ?_, renderTexts_error words row⟩
  · intro ps hps
    obtain ⟨ve, _, rfl⟩ := renderTexts_ok words row ps hps
    exact ⟨rfl, texts_place row ve⟩
  · intro ve hve
    rw [renderTexts, hve]

/-- C9 as stated fails: the document of the row without cells has thirteen text
placements, not fourteen. -/
theorem fourteen_placements_counterexample :
    ∃ ps, renderTexts (fun _ => .ok "") [] = .ok ps ∧ ps.length = 13 ∧ ps.length ≠ 14 :=
  ⟨texts [] "__________________________", by decide, by decide, by decide⟩

theorem pdfPath_injective (dir : String) : Function.Injective (pdfPath dir) := by
  intro i j h
  have h2 := congrArg String.data h
  simp only [pdfPath, pathJoin, natToString, String.data_append, List.append_assoc] at h2
  have h3 := List.append_cancel_left (List.append_cancel_left (List.append_cancel_left h2))
  have h4 := natToChars_injective (List.append_cancel_right h3)
  omega

theorem executor_streams (dir : String) (req : Request) (row : Row) (i : Nat) (w : World) :
    (executor dir req row i w).2.streams = w.streams ++ [pdfPath dir i] := by
  unfold executor
  cases renderTexts req.words row <;> rfl

theorem generatePDFs_streams (dir : String) (req : Request) (data : List Row) :
    ∀ (i : Nat) (w : World), (generatePDFs dir req data i w).2.streams =
      w.streams ++ (List.range data.length).map (fun k => pdfPath dir (i + k)) := by
  induction data with
  | nil => intro i w; simp [generatePDFs]
  | cons row rest ih =>
    intro i w
    rw [generatePDFs]
    simp only [ih, executor_streams, List.length_cons, List.range_succ_eq_map, List.map_cons,
      List.map_map, List.append_assoc, List.singleton_append, add_zero]
    congr 2
    apply List.map_congr_left
    intro k _
    simp only [Function.comp_apply]
    congr 1
    omega

/-- C4. For every table, the job of the row at position `i` opens its write stream on
`usuario_<i+1>.pdf` in the scratch directory: the targets are `usuario_1.pdf` to
`usuario_n.pdf` in row order, no two jobs have the same target, and the targets are the
same for any other table of the same length, whatever the rows hold and whatever event
settles each job. -/
theorem job_targets (dir : String) (req : Request) (data : List Row) (fs : FS) :
    (generatePDFs dir req data 0 ⟨fs, [], [], []⟩).2.streams =
        (List.range data.length).map
          (fun i => dir ++ "/" ++ ("usuario_" ++ natToString (i + 1) ++ ".pdf")) ∧
      ((generatePDFs dir req data 0 ⟨fs, [], [], []⟩).2.streams).Nodup ∧
      ∀ (req2 : Request) (data2 : List Row) (fs2 : FS), data2.length = data.length →
        (generatePDFs dir req2 data2 0 ⟨fs2, [], [], []⟩).2.streams =
          (generatePDFs dir req data 0 ⟨fs, [], [], []⟩).2.streams := by
  have h : ∀ (r : Request) (d : List Row) (f : FS),
      (generatePDFs dir r d 0 ⟨f, [], [], []⟩).2.streams =
        (List.range d.length).map (pdfPath dir) := by
    intro r d f
    rw [generatePDFs_streams]
    simp
  refine ⟨by rw [h]; rfl, ?_, ?_⟩
  · rw [h]
    exact (List.nodup_range _).map (pdfPath_injective dir)
  · intro req2 data2 fs2 hlen
    rw [h, h, hlen]

theorem executor_archived (dir : String) (req : Request) (row : Row) (i : Nat) (w : World) :
    (executor dir req row i w).2.archived = w.archived := by
  unfold executor
  cases renderTexts req.words row <;> rfl

theorem generatePDFs_archived (dir : String) (req : Request) (data : List Row) :
    ∀ (i : Nat) (w : World), (generatePDFs dir req data i w).2.archived = w.archived := by
  induction data with
  | nil => intro i w; rfl
  | cons row rest ih => intro i w; rw [generatePDFs]; simp only [ih, executor_archived]

theorem generatePDFs_documents (dir : String) (req : Request) (data : List Row) :
    ∀ (i : Nat) (w : World), (generatePDFs dir req data i w).2.documents =
      w.documents ++ drawn dir req.words data i := by
  induction data with
  | nil => intro i w; simp [generatePDFs, drawn]
  | cons row rest ih =>
    intro i w
    rw [generatePDFs]
    simp only [ih, drawn, executor]
    cases renderTexts req.words row <;> simp

theorem executor_settled (dir : String) (req : Request) (row : Row) (i : Nat) (w : World) :
    (executor dir req row i w).1 =
      match renderTexts req.words row with
      | .error e => .rejected e
      | .ok _ => if req.jobEvent i = .silent then .pending else .resolved := by
  unfold executor
  cases renderTexts req.words row <;> rfl

/-- When the executor of some row throws, `Promise.all` rejects, with the error of a
row. -/
theorem promiseAll_rejected (dir : String) (req : Request) (data : List Row) :
    ∀ (i : Nat) (w : World), (∃ row ∈ data, ∃ e, renderTexts req.words row = .error e) →
      ∃ e, (∃ row ∈ data, renderTexts req.words row = .error e) ∧
        promiseAll (generatePDFs dir req data i w).1 = .rejected e := by
  induction data with
  | nil => intro i w h; simp at h
  | cons row rest ih =>
    intro i w h
    rw [generatePDFs]
    simp only [executor_settled]
    cases hr : renderTexts req.words row with
    | error e => exact ⟨e, ⟨row, by simp, hr⟩, rfl⟩
    | ok ps =>
      have hrest : ∃ r ∈ rest, ∃ e, renderTexts req.words r = .error e := by
        obtain ⟨r, hmem, e, he⟩ := h
        rcases List.mem_cons.mp hmem with rfl | hmem
        · rw [hr] at he; cases he
        · exact ⟨r, hmem, e, he⟩
      obtain ⟨e, ⟨r, hmem, he⟩, hp⟩ := ih (i + 1) (executor dir req row i w).2 hrest
      refine ⟨e, ⟨r, List.mem_cons_of_mem _ hmem, he⟩, ?_⟩
      simp only
      split_ifs <;> simp [promiseAll, hp]

/-- When no executor throws and every job is settled by an event, `Promise.all`
resolves. -/
theorem promiseAll_resolved (dir : String) (req : Request) (data : List Row)
    (hev : ∀ k, req.jobEvent k ≠ .silent) :
    ∀ (i : Nat) (w : World), (∀ row ∈ data, ∃ ps, renderTexts req.words row = .ok ps) →
      promiseAll (generatePDFs dir req data i w).1 = .resolved := by
  induction data with
  | nil => intro i w _; rfl
  | cons row rest ih =>
    intro i w h
    rw [generatePDFs]
    obtain ⟨ps, hps⟩ := h row (by simp)
    simp only [executor_settled, hps, if_neg (hev i), promiseAll]
    exact ih (i + 1) _ (fun r hr => h r (List.mem_cons_of_mem _ hr))

/-! ## The handler -/

/-- A request with an uploaded file that is on disk and holds rows, no scratch directory
of its token on disk yet, and the background image on disk: the handler reaches the
jobs. -/
theorem upload_ready (dirname : String) (req : Request) (fs : FS) (p : String)
    (data : List Row) (hf : req.file = some p) (hp : p ∈ fs) (hs : req.sheet = .ok data)
    (hd : data ≠ []) (hdir : pdfDir dirname req ∉ fs) (himg : imagePath dirname ∈ fs)
    (hne : imagePath dirname ≠ p) :
    upload dirname req fs =
      renderBatch dirname req data
        (pdfDir dirname req :: fs.filter (fun q => decide (q ≠ p))) := by
  have hlen : data.length ≠ 0 := by simpa using hd
  have hdir2 : pdfDir dirname req ∉ fs.filter (fun q => decide (q ≠ p)) :=
    fun h => hdir (List.mem_of_mem_filter h)
  have himg2 : imagePath dirname ∈ pdfDir dirname req :: fs.filter (fun q => decide (q ≠ p)) :=
    List.mem_cons_of_mem _ (List.mem_filter.mpr ⟨himg, by simpa using hne⟩)
  unfold upload
  simp only [hf, hs, unlinkSync, mkdirSync, existsSync, hp, not_true_eq_false, if_true,
    if_false, hlen, hdir2, himg2, decide_True, Bool.not_true, Bool.false_eq_true]

theorem archiveAndSend_archived (dirname : String) (req : Request) (w : World) :
    (archiveAndSend dirname req w).world.archived = w.archived ++ [pdfDir dirname req] := by
  unfold archiveAndSend
  split_ifs <;> rfl

theorem archiveAndSend_response (dirname : String) (req : Request) (w : World) :
    (archiveAndSend dirname req w).response =
      some (if req.archiveError = true then .send 500 "Erro ao criar o arquivo ZIP."
        else if req.downloadError = true then .send 500 "Erro ao enviar o arquivo."
        else .download (zipPath dirname req) "documentos.zip") := by
  unfold archiveAndSend
  split_ifs <;> rfl

theorem renderBatch_response_ne (dirname : String) (req : Request) (data : List Row) (fs : FS) :
    (renderBatch dirname req data fs).response ≠ some (.send 400 "Planilha sem dados.") := by
  unfold renderBatch
  split
  · simp [catchBlock]
  · simp
  · rw [archiveAndSend_response]
    split_ifs <;> simp

/-- C5. For every upload whose first sheet has no data rows, the handler answers 400
"Planilha sem dados." and does nothing else than remove the uploaded file: no scratch
directory, no stream, no document, no archive. With at least one data row, this answer
is not given. -/
theorem empty_sheet_is_refused (dirname : String) (req : Request) (fs : FS) (p : String)
    (data : List Row) (hf : req.file = some p) (hp : p ∈ fs) (hs : req.sheet = .ok data) :
    (data = [] →
        upload dirname req fs =
          ⟨⟨fs.filter (fun q => decide (q ≠ p)), [], [], []⟩,
            some (.send 400 "Planilha sem dados.")⟩) ∧
      (data ≠ [] →
        (upload dirname req fs).response ≠ some (.send 400 "Planilha sem dados.")) := by
  constructor
  · rintro rfl
    unfold upload
    simp [hf, hs, unlinkSync, hp]
  · intro hd
    have hlen : data.length ≠ 0 := by simpa using hd
    unfold upload
    simp only [hf, hs, unlinkSync, hp, not_true_eq_false, if_true, if_false, hlen]
    cases mkdirSync (fs.filter (fun q => decide (q ≠ p))) (pdfDir dirname req) with
    | error e => simp [catchBlock]
    | ok fs2 =>
      simp only
      split_ifs
      · simp
      · exact renderBatch_response_ne dirname req data fs2

/-- C5 at the sample upload with its sheet emptied. -/
theorem empty_sheet_is_refused_witness :
    (({ sampleRequest with sheet := .ok [] } : Request).file = some "/app/uploads/f1" ∧
      "/app/uploads/f1" ∈ sampleFS ∧
      ({ sampleRequest with sheet := .ok [] } : Request).sheet = .ok []) ∧
    upload "/app" { sampleRequest with sheet := .ok [] } sampleFS =
      ⟨⟨["/app/nota-promissoria1455730210.png"], [], [], []⟩,
        some (.send 400 "Planilha sem dados.")⟩ :=
  ⟨⟨rfl, by decide, rfl⟩,
    (empty_sheet_is_refused "/app" { sampleRequest with sheet := .ok [] } sampleFS
      "/app/uploads/f1" [] rfl (by decide) rfl).1 rfl⟩

/-- C6, as the code has it. When the number-to-words function throws on the positive
amount of some row, the promise of that row is rejected and no text of it is drawn; the
jobs of all rows are still started and the other rows are drawn; `Promise.all` rejects,
the archiver is not run, and the handler answers 500 from the outer `catch` with the
message of the error. -/
theorem words_failure_aborts_batch (dirname : String) (req : Request) (fs : FS) (p : String)
    (data : List Row) (hf : req.file = some p) (hp : p ∈ fs) (hs : req.sheet = .ok data)
    (hdir : pdfDir dirname req ∉ fs) (himg : imagePath dirname ∈ fs)
    (hne : imagePath dirname ≠ p) (row : Row) (hrow : row ∈ data)
    (hpos : (valorNumerico row).gtZero = true) (e : String)
    (hthrow : req.words (valorNumerico row) = .error e) :
    ∃ e2, (∃ r ∈ data, (valorNumerico r).gtZero = true ∧
          req.words (valorNumerico r) = .error e2) ∧
      (upload dirname req fs).response =
        some (.send 500 ("Erro no processamento: " ++ e2)) ∧
      (upload dirname req fs).world.archived = [] ∧
      (upload dirname req fs).world.streams =
        (List.range data.length).map (pdfPath (pdfDir dirname req)) ∧
      (upload dirname req fs).world.documents = drawn (pdfDir dirname req) req.words data 0 := by
  have hd : data ≠ [] := List.ne_nil_of_mem hrow
  have herr : renderTexts req.words row = .error e := by
    rw [renderTexts, valorExtenso, if_pos hpos, hthrow]
  obtain ⟨e2, ⟨r, hr, he2⟩, hall⟩ := promiseAll_rejected (pdfDir dirname req) req data 0
    ⟨pdfDir dirname req :: fs.filter (fun q => decide (q ≠ p)), [], [], []⟩ ⟨row, hrow, e, herr⟩
  refine ⟨e2, ⟨r, hr, renderTexts_error req.words r e2 he2⟩, ?_⟩
  rw [upload_ready dirname req fs p data hf hp hs hd hdir himg hne]
  unfold renderBatch
  rw [hall]
  simp only [catchBlock, generatePDFs_archived, generatePDFs_streams, generatePDFs_documents,
    List.nil_append, zero_add, true_and]

/-- C6, as the code has it, at the sample request with a number-to-words function that
always throws. -/
theorem words_failure_aborts_batch_witness :
    (sampleRow ∈ [sampleRow, []] ∧ (valorNumerico sampleRow).gtZero = true) ∧
    ∃ e2, (∃ r ∈ [sampleRow, []], (valorNumerico r).gtZero = true ∧
          ({ sampleRequest with words := fun _ => .error "boom" } : Request).words
            (valorNumerico r) = .error e2) ∧
      (upload "/app" { sampleRequest with words := fun _ => .error "boom" } sampleFS).response =
        some (.send 500 ("Erro no processamento: " ++ e2)) ∧
      (upload "/app" { sampleRequest with words := fun _ => .error "boom" }
        sampleFS).world.archived = [] ∧
      (upload "/app" { sampleRequest with words := fun _ => .error "boom" }
        sampleFS).world.streams =
          (List.range [sampleRow, []].length).map
            (pdfPath (pdfDir "/app" { sampleRequest with words := fun _ => .error "boom" })) ∧
      (upload "/app" { sampleRequest with words := fun _ => .error "boom" }
        sampleFS).world.documents =
          drawn (pdfDir "/app" { sampleRequest with words := fun _ => .error "boom" })
            (fun _ => .error "boom") [sampleRow, []] 0 :=
  ⟨⟨by decide, by decide⟩,
    words_failure_aborts_batch "/app" { sampleRequest with words := fun _ => .error "boom" }
      sampleFS "/app/uploads/f1" [sampleRow, []] rfl (by decide) rfl (by decide) (by decide)
      (by decide) sampleRow (by decide) (by decide) "boom" rfl⟩

/-- C6 as stated fails: with a number-to-words function that throws, the sample request
is answered with the 500 of the outer `catch`, not with the archive; the archiver is not
run, and nothing is drawn for the row with the positive amount (only for the other). -/
theorem words_failure_counterexample :
    (upload "/app" { sampleRequest with words := fun _ => .error "boom" } sampleFS).response =
        some (.send 500 "Erro no processamento: boom") ∧
      (upload "/app" { sampleRequest with words := fun _ => .error "boom" }
        sampleFS).world.archived = [] ∧
      (upload "/app" { sampleRequest with words := fun _ => .error "boom" }
        sampleFS).world.documents =
          [("/app/pdfs_1700000000000_42/usuario_2.pdf", placeholderTexts)] := by
  decide

/-- C8, as the code has it. When every job of a batch is settled by the error handler of
its stream or of its document, `Promise.all` resolves all the same: the archiver is run
on the scratch directory and the handler answers with the download of the archive (or
with the 500 of a failed archive or transfer). -/
theorem failed_jobs_still_archived (dirname : String) (req : Request) (fs : FS) (p : String)
    (data : List Row) (hf : req.file = some p) (hp : p ∈ fs) (hs : req.sheet = .ok data)
    (hd : data ≠ []) (hdir : pdfDir dirname req ∉ fs) (himg : imagePath dirname ∈ fs)
    (hne : imagePath dirname ≠ p)
    (hrun : ∀ row ∈ data, ∃ ps, renderTexts req.words row = .ok ps)
    (hev : ∀ k, req.jobEvent k = .streamError ∨ req.jobEvent k = .docError) :
    (upload dirname req fs).world.archived = [pdfDir dirname req] ∧
      (upload dirname req fs).response =
        some (if req.archiveError = true then .send 500 "Erro ao criar o arquivo ZIP."
          else if req.downloadError = true then .send 500 "Erro ao enviar o arquivo."
          else .download (zipPath dirname req) "documentos.zip") := by
  have hns : ∀ k, req.jobEvent k ≠ .silent := by
    intro k h
    rcases hev k with h2 | h2 <;> rw [h] at h2 <;> cases h2
  have hall := promiseAll_resolved (pdfDir dirname req) req data hns 0
    ⟨pdfDir dirname req :: fs.filter (fun q => decide (q ≠ p)), [], [], []⟩ hrun
  rw [upload_ready dirname req fs p data hf hp hs hd hdir himg hne]
  unfold renderBatch
  rw [hall]
  simp only [archiveAndSend_archived, archiveAndSend_response, generatePDFs_archived,
    List.nil_append, and_self]

/-- C8, as the code has it, at the sample request with a stream error in every job. -/
theorem failed_jobs_still_archived_witness :
    (∀ k, ({ sampleRequest with jobEvent := fun _ => .streamError } : Request).jobEvent k =
        .streamError ∨
      ({ sampleRequest with jobEvent := fun _ => .streamError } : Request).jobEvent k =
        .docError) ∧
    (upload "/app" { sampleRequest with jobEvent := fun _ => .streamError }
        sampleFS).world.archived =
      [pdfDir "/app" { sampleRequest with jobEvent := fun _ => .streamError }] ∧
    (upload "/app" { sampleRequest with jobEvent := fun _ => .streamError } sampleFS).response =
      some (if ({ sampleRequest with jobEvent := fun _ => .streamError } : Request).archiveError
          = true then .send 500 "Erro ao criar o arquivo ZIP."
        else if ({ sampleRequest with jobEvent := fun _ => .streamError } : Request).downloadError
          = true then .send 500 "Erro ao enviar o arquivo."
        else .download (zipPath "/app" { sampleRequest with jobEvent := fun _ => .streamError })
          "documentos.zip") :=
  ⟨fun _ => Or.inl rfl,
    failed_jobs_still_archived "/app" { sampleRequest with jobEvent := fun _ => .streamError }
      sampleFS "/app/uploads/f1" [sampleRow, []] rfl (by decide) rfl (by decide) (by decide)
      (by decide) (by decide)
      (by
        intro row hrow
        simp only [List.mem_cons, List.mem_singleton, List.not_mem_nil, or_false] at hrow
        rcases hrow with rfl | rfl
        · exact ⟨texts sampleRow "mil e quinhentos reais", by decide⟩
        · exact ⟨placeholderTexts, by decide⟩)
      (fun _ => Or.inl rfl)⟩

/-- C8 as stated fails: with a stream error in every job, the sample request still has
the archiver run and is answered with the download of the archive. -/
theorem failed_jobs_counterexample :
    (upload "/app" { sampleRequest with jobEvent := fun _ => .streamError }
        sampleFS).world.archived = ["/app/pdfs_1700000000000_42"] ∧
      (upload "/app" { sampleRequest with jobEvent := fun _ => .streamError }
        sampleFS).response =
          some (.download "/app/pdfs_1700000000000_42.zip" "documentos.zip") := by
  decide

theorem not_mem_rmSync (fs : FS) (p : String) : p ∉ rmSync fs p := by
  simp [rmSync]

theorem not_mem_after_unlink (fs : FS) (p q : String) (hq : q ∉ fs) :
    (q ∉ match unlinkSync fs p with
      | .ok fs2 => fs2
      | .error _ => fs) ∧
    (p ∉ match unlinkSync fs p with
      | .ok fs2 => fs2
      | .error _ => fs) := by
  unfold unlinkSync
  by_cases hp : p ∈ fs
  · rw [if_pos hp]
    exact ⟨fun h => hq (List.mem_of_mem_filter h), by simp⟩
  · rw [if_neg hp]
    exact ⟨hq, hp⟩

/-- On the two paths with cleanup code, the archive error and the completed download,
neither the scratch directory nor the archive is left on disk. -/
theorem archiveAndSend_cleans (dirname : String) (req : Request) (w : World)
    (h : req.archiveError = true ∨ req.downloadError = false) :
    pdfDir dirname req ∉ (archiveAndSend dirname req w).world.fs ∧
      zipPath dirname req ∉ (archiveAndSend dirname req w).world.fs := by
  have hun := not_mem_after_unlink (rmSync (openForWrite w.fs (zipPath dirname req))
    (pdfDir dirname req)) (zipPath dirname req) (pdfDir dirname req) (not_mem_rmSync _ _)
  unfold archiveAndSend
  by_cases ha : req.archiveError = true
  · simp only [ha, if_true]
    by_cases hex : existsSync (rmSync (openForWrite w.fs (zipPath dirname req))
        (pdfDir dirname req)) (zipPath dirname req) = true
    · simp only [hex, if_true]
      exact hun
    · simp only [hex, if_false]
      exact ⟨not_mem_rmSync _ _, by simpa [existsSync] using hex⟩
  · have hdl : req.downloadError = false := by
      rcases h with h | h
      · exact absurd h ha
      · exact h
    simp only [ha, hdl, if_false, Bool.false_eq_true]
    exact hun

/-- C7 fails on three paths of the handler. When the background image is missing, the
scratch directory made just before is left on disk; when the transfer of the archive
fails, the scratch directory, its documents and the archive are left; when the outer
`catch` is reached from the jobs, the scratch directory and its documents are left. -/
theorem scratch_left_behind :
    ((upload "/app" sampleRequest ["/app/uploads/f1"]).response =
        some (.send 500 "Imagem de fundo não encontrada.") ∧
      "/app/pdfs_1700000000000_42" ∈ (upload "/app" sampleRequest ["/app/uploads/f1"]).world.fs) ∧
    ((upload "/app" { sampleRequest with downloadError := true } sampleFS).response =
        some (.send 500 "Erro ao enviar o arquivo.") ∧
      "/app/pdfs_1700000000000_42" ∈
        (upload "/app" { sampleRequest with downloadError := true } sampleFS).world.fs ∧
      "/app/pdfs_1700000000000_42.zip" ∈
        (upload "/app" { sampleRequest with downloadError := true } sampleFS).world.fs) ∧
    ((upload "/app" { sampleRequest with words := fun _ => .error "boom" } sampleFS).response =
        some (.send 500 "Erro no processamento: boom") ∧
      "/app/pdfs_1700000000000_42" ∈
        (upload "/app" { sampleRequest with words := fun _ => .error "boom" }
          sampleFS).world.fs) ∧
    pdfDir "/app" sampleRequest = "/app/pdfs_1700000000000_42" ∧
    zipPath "/app" sampleRequest = "/app/pdfs_1700000000000_42.zip" := by
  decide

end NotaPromissoria
